import Mathlib

/-!
Verification of the presence-and-routing core of `web_messenger_app.js`
(the socket.io section, lines 74-99 of the source).

The runtime state consists of:
- `onlineUsers` : the in-memory object `nickname -> socket.id` (line 29),
  embedded as an association list with JavaScript object semantics
  (assignment replaces the value at an existing key in place, `delete`
  removes the key);
- the set of currently connected sockets, each carrying its `socket.id`
  and the mutable `socket.nickname` property (undefined until a `join`
  event is received, modelled as `Option String`).

Inbound event payloads are untrusted JavaScript values, embedded by
`JSVal`; the destructuring pattern `({ to, text })` of the
`privateMessage` handler throws a TypeError when the payload is
`undefined` or `null`, which the embedding surfaces through `Except`.
-/

/-- A JavaScript value, as far as the message handlers can observe one. -/
inductive JSVal where
  | undef : JSVal
  | null : JSVal
  | boolean : Bool → JSVal
  | number : Int → JSVal
  | str : String → JSVal
  | obj : List (String × JSVal) → JSVal
deriving Repr

/-- Property access `o[k]` on the field list of a JavaScript object:
missing properties read as `undefined`. -/
def getField : List (String × JSVal) → String → JSVal
  | [], _ => .undef
  | p :: rest, k => if p.1 = k then p.2 else getField rest k

/-- The parameter destructuring `({ k1, k2 }) => ...` used by the
`privateMessage` handler (line 86): throws a TypeError when the argument
is `undefined` or `null`, otherwise reads the two properties (property
access on a primitive goes through a wrapper object and yields
`undefined`). -/
def destructure2 : JSVal → String → String → Except String (JSVal × JSVal)
  | .undef, _, _ => .error "TypeError"
  | .null, _, _ => .error "TypeError"
  | .obj fields, k1, k2 => .ok (getField fields k1, getField fields k2)
  | .boolean _, _, _ => .ok (.undef, .undef)
  | .number _, _, _ => .ok (.undef, .undef)
  | .str _, _, _ => .ok (.undef, .undef)

/-- Coercion of a JavaScript value to a property key, as in
`onlineUsers[to]` (line 87). -/
def jsKeyOfVal : JSVal → String
  | .undef => "undefined"
  | .null => "null"
  | .boolean b => if b then "true" else "false"
  | .number n => toString n
  | .str s => s
  | .obj _ => "[object Object]"

/-- Coercion of the possibly-undefined `socket.nickname` to a property
key, as in `delete onlineUsers[socket.nickname]` (line 97): an undefined
nickname is coerced to the literal key `"undefined"`. -/
def nicknameKey : Option String → String
  | some n => n
  | none => "undefined"

/-- Read `onlineUsers[k]`: `none` plays the role of `undefined`. -/
def objGet : List (String × String) → String → Option String
  | [], _ => none
  | p :: rest, k => if p.1 = k then some p.2 else objGet rest k

/-- The assignment `onlineUsers[k] = v` (line 77): replaces the value at
an existing key in place, otherwise appends the new key. -/
def objSet : List (String × String) → String → String → List (String × String)
  | [], k, v => [(k, v)]
  | p :: rest, k, v => if p.1 = k then (k, v) :: rest else p :: objSet rest k v

/-- The statement `delete onlineUsers[k]` (line 97): removes the key. -/
def objDelete : List (String × String) → String → List (String × String)
  | [], _ => []
  | p :: rest, k => if p.1 = k then objDelete rest k else p :: objDelete rest k

/-- One connected socket: its immutable `socket.id` and the mutable
`socket.nickname` property, which is undefined until a `join` event
assigns it (line 76). -/
structure Socket where
  id : String
  nickname : Option String
deriving Repr, DecidableEq

/-- The shared server state: the `onlineUsers` map and the currently
connected sockets. -/
structure SystemState where
  onlineUsers : List (String × String)
  sockets : List Socket
deriving Repr, DecidableEq

/-- One dispatch performed by a handler: `targetId` is the socket.io
room the event is emitted to (each socket is a member of the room named
by its own id; `io.emit` is one dispatch per connected socket). -/
structure Delivery where
  targetId : String
  eventName : String
  sender : Option String
  text : JSVal
deriving Repr

/-- The inbound events the socket.io section reacts to, each tagged with
the id of the socket it arrives on. -/
inductive Event where
  | connect : String → Event
  | join : String → String → Event
  | globalMessage : String → JSVal → Event
  | privateMessage : String → JSVal → Event
  | disconnect : String → Event

/-- Look up a connected socket by id. -/
def findSocket : List Socket → String → Option Socket
  | [], _ => none
  | s :: rest, sid => if s.id = sid then some s else findSocket rest sid

/-- The assignment `socket.nickname = nickname` (line 76) applied to the
socket with the given id. -/
def setNickname (sockets : List Socket) (sid n : String) : List Socket :=
  sockets.map (fun s => if s.id = sid then { s with nickname := some n } else s)

/-- Remove a socket from the connected set (the transport closing). -/
def removeSocket : List Socket → String → List Socket
  | [], _ => []
  | s :: rest, sid => if s.id = sid then removeSocket rest sid else s :: removeSocket rest sid

/-- One step of the server: the handler the socket.io section (lines
74-99) runs for the given event, returning the new state and the list of
dispatches, or the message of a thrown exception. Events carrying the id
of a socket that is not connected are ignored (socket.io only fires
handlers for live sockets). -/
def step (st : SystemState) (e : Event) : Except String (SystemState × List Delivery) :=
  match e with
  | .connect sid =>
      .ok ({ st with sockets := st.sockets ++ [{ id := sid, nickname := none }] }, [])
  | .join sid nickname =>
      match findSocket st.sockets sid with
      | none => .ok (st, [])
      | some _ =>
          .ok ({ onlineUsers := objSet st.onlineUsers nickname sid,
                 sockets := setNickname st.sockets sid nickname }, [])
  | .globalMessage sid msg =>
      match findSocket st.sockets sid with
      | none => .ok (st, [])
      | some sock =>
          .ok (st, st.sockets.map (fun c =>
            { targetId := c.id, eventName := "globalMessage",
              sender := sock.nickname, text := msg }))
  | .privateMessage sid payload =>
      match findSocket st.sockets sid with
      | none => .ok (st, [])
      | some sock =>
          match destructure2 payload "to" "text" with
          | .error msg => .error msg
          | .ok (toV, textV) =>
              match objGet st.onlineUsers (jsKeyOfVal toV) with
              | none => .ok (st, [])
              | some tid =>
                  if tid = "" then .ok (st, [])
                  else .ok (st, [{ targetId := tid, eventName := "privateMessage",
                                   sender := sock.nickname, text := textV }])
  | .disconnect sid =>
      match findSocket st.sockets sid with
      | none => .ok (st, [])
      | some sock =>
          .ok ({ onlineUsers := objDelete st.onlineUsers (nicknameKey sock.nickname),
                 sockets := removeSocket st.sockets sid }, [])

/-- Run a sequence of events from a state, accumulating dispatches and
stopping at the first thrown exception. -/
def runEvents (st : SystemState) : List Event → Except String (SystemState × List Delivery)
  | [] => .ok (st, [])
  | e :: rest =>
      match step st e with
      | .error msg => .error msg
      | .ok (st1, ds) =>
          match runEvents st1 rest with
          | .error msg => .error msg
          | .ok (st2, ds2) => .ok (st2, ds ++ ds2)

/-- The state at process start: no users online, no sockets connected. -/
def initState : SystemState := { onlineUsers := [], sockets := [] }

/-! ### Lemmas about the object operations -/

theorem objGet_objSet_self (m : List (String × String)) (k v : String) :
    objGet (objSet m k v) k = some v := by
  induction m with
  | nil => simp [objSet, objGet]
  | cons p rest ih =>
      by_cases h : p.1 = k
      · simp [objSet, objGet, h]
      · simp [objSet, objGet, h, ih]

theorem objGet_objSet_ne (m : List (String × String)) (k v k' : String) (h : k' ≠ k) :
    objGet (objSet m k v) k' = objGet m k' := by
  induction m with
  | nil => simp [objSet, objGet, Ne.symm h]
  | cons p rest ih =>
      by_cases hp : p.1 = k
      · subst hp
        simp [objSet, objGet, Ne.symm h]
      · simp [objSet, objGet, hp, ih]

theorem objGet_objDelete_self (m : List (String × String)) (k : String) :
    objGet (objDelete m k) k = none := by
  induction m with
  | nil => simp [objDelete, objGet]
  | cons p rest ih =>
      by_cases h : p.1 = k
      · simp [objDelete, h, ih]
      · simp [objDelete, objGet, h, ih]

theorem objGet_objDelete_ne (m : List (String × String)) (k k' : String) (h : k' ≠ k) :
    objGet (objDelete m k) k' = objGet m k' := by
  induction m with
  | nil => simp [objDelete]
  | cons p rest ih =>
      by_cases hp : p.1 = k
      · subst hp
        simp [objDelete, objGet, Ne.symm h, ih]
      · simp [objDelete, objGet, hp, ih]

theorem keys_objSet (m : List (String × String)) (k v : String) :
    (objSet m k v).map Prod.fst =
      if k ∈ m.map Prod.fst then m.map Prod.fst else m.map Prod.fst ++ [k] := by
  induction m with
  | nil => simp [objSet]
  | cons p rest ih =>
      by_cases hp : p.1 = k
      · subst hp
        simp [objSet]
      · by_cases hm : k ∈ rest.map Prod.fst
        · simp [objSet, hp, ih, hm, Ne.symm hp]
        · simp [objSet, hp, ih, hm, Ne.symm hp]

theorem keysNodup_objSet (m : List (String × String)) (k v : String)
    (h : (m.map Prod.fst).Nodup) : ((objSet m k v).map Prod.fst).Nodup := by
  rw [keys_objSet]
  by_cases hm : k ∈ m.map Prod.fst
  · simpa [hm] using h
  · rw [if_neg hm]
    refine List.Nodup.append h (List.nodup_singleton k) ?_
    intro a ha hb
    simp at hb
    subst hb
    exact hm ha

theorem keys_objDelete_sublist (m : List (String × String)) (k : String) :
    ((objDelete m k).map Prod.fst).Sublist (m.map Prod.fst) := by
  induction m with
  | nil => simp [objDelete]
  | cons p rest ih =>
      by_cases hp : p.1 = k
      · simp only [objDelete, if_pos hp, List.map_cons]
        exact ih.cons p.1
      · simp only [objDelete, if_neg hp, List.map_cons]
        exact ih.cons₂ p.1

theorem keysNodup_objDelete (m : List (String × String)) (k : String)
    (h : (m.map Prod.fst).Nodup) : ((objDelete m k).map Prod.fst).Nodup :=
  (keys_objDelete_sublist m k).nodup h

/-! ### Lemmas about the connected-socket list -/

theorem findSocket_setNickname_self (ss : List Socket) (sid n : String) (sock : Socket)
    (h : findSocket ss sid = some sock) :
    findSocket (setNickname ss sid n) sid = some { sock with nickname := some n } := by
  induction ss with
  | nil => simp [findSocket] at h
  | cons s rest ih =>
      by_cases hs : s.id = sid
      · simp [findSocket, hs] at h
        subst h
        simp [setNickname, findSocket, hs]
      · simp [findSocket, hs] at h
        simp [setNickname, findSocket, hs]
        simpa [setNickname] using ih h

/-! ### Claim C1: the disconnect tie-break -/

/-- The run register(H, C1); register(H, C2); disconnect of C1, played
against the server from its start state. -/
def tieBreakRun : Except String (SystemState × List Delivery) :=
  runEvents initState [Event.connect "c1", Event.join "c1" "H", Event.connect "c2",
    Event.join "c2" "H", Event.disconnect "c1"]

/-- C1, counterexample: after register(H, C1); register(H, C2), the
disconnect of C1 does NOT leave the registry unchanged — it deletes the
entry for H outright, so H no longer maps to C2's id afterwards. There
is no identity tie-break in the code: line 97 deletes unconditionally. -/
theorem tieBreak_superseded_disconnect_deletes :
    tieBreakRun = Except.ok ({ onlineUsers := [], sockets := [⟨"c2", some "H"⟩] }, []) ∧
      objGet ([] : List (String × String)) "H" ≠ some "c2" :=
  ⟨rfl, by simp [objGet]⟩

/-- C1, amended: unregistering on behalf of a channel whose bound
nickname is H removes H's registry entry unconditionally — whichever
channel is currently registered under H — and leaves every other
handle's entry unchanged. (In particular the disconnect of a superseded
channel deletes the newer registration, so the only part of the original
claim that survives is that the disconnect of the currently registered
channel removes the entry.) -/
theorem disconnect_deletes_bound_handle (st : SystemState) (sid H : String) (sock : Socket)
    (hfind : findSocket st.sockets sid = some sock)
    (hnick : sock.nickname = some H) :
    ∃ st', step st (Event.disconnect sid) = Except.ok (st', []) ∧
      objGet st'.onlineUsers H = none ∧
      ∀ K, K ≠ H → objGet st'.onlineUsers K = objGet st.onlineUsers K := by
  refine ⟨{ onlineUsers := objDelete st.onlineUsers (nicknameKey sock.nickname),
            sockets := removeSocket st.sockets sid }, ?_, ?_, ?_⟩
  · simp [step, hfind]
  · simp [hnick, nicknameKey, objGet_objDelete_self]
  · intro K hK
    simp [hnick, nicknameKey, objGet_objDelete_ne _ _ _ hK]

/-- Witness for the amended C1 at a concrete state: two sockets, H
registered to the second, the first still bound to H; its disconnect
removes H and leaves K alone. -/
theorem disconnect_deletes_bound_handle_witness :
    ∃ st', step { onlineUsers := [("H", "c2"), ("K", "c3")],
                  sockets := [⟨"c1", some "H"⟩, ⟨"c2", some "H"⟩] }
             (Event.disconnect "c1") = Except.ok (st', []) ∧
      objGet st'.onlineUsers "H" = none ∧
      ∀ K, K ≠ "H" → objGet st'.onlineUsers K =
        objGet [("H", "c2"), ("K", "c3")] K :=
  disconnect_deletes_bound_handle _ "c1" "H" ⟨"c1", some "H"⟩ rfl rfl

/-! ### Claim C2: broadcast fan-out -/

/-- A state with one registered socket and one connected socket that
never joined: the registry holds only A, yet both sockets are live. -/
def mixedState : SystemState :=
  { onlineUsers := [("A", "a")], sockets := [⟨"a", some "A"⟩, ⟨"b", none⟩] }

/-- C2, counterexample: `io.emit` (line 82) fans out to every CONNECTED
socket, not to the registry. In `mixedState` the socket "b" is connected
but registered under no handle, and it still receives the broadcast,
refuting "no channel that is not currently registered receives it". -/
theorem broadcast_reaches_unregistered :
    step mixedState (Event.globalMessage "a" (JSVal.str "hi"))
      = Except.ok (mixedState,
        [{ targetId := "a", eventName := "globalMessage", sender := some "A",
           text := JSVal.str "hi" },
         { targetId := "b", eventName := "globalMessage", sender := some "A",
           text := JSVal.str "hi" }]) ∧
      "b" ∉ mixedState.onlineUsers.map Prod.snd :=
  ⟨rfl, by simp [mixedState]⟩

/-- C2, amended: a broadcast routed on behalf of a connected socket
sends one `BroadcastDelivery(senderHandle, text)` to every currently
CONNECTED channel — whether registered or not — exactly once each (given
the socket ids are distinct, as socket.io guarantees), and to no other
target; the registry takes no part in the fan-out. -/
theorem broadcast_connected_fanout (st : SystemState) (sid : String) (m : JSVal) (sock : Socket)
    (hfind : findSocket st.sockets sid = some sock)
    (hnd : (st.sockets.map Socket.id).Nodup) :
    ∃ ds, step st (Event.globalMessage sid m) = Except.ok (st, ds) ∧
      ds.map (fun d => d.targetId) = st.sockets.map Socket.id ∧
      (∀ c ∈ st.sockets, (ds.map (fun d => d.targetId)).count c.id = 1) ∧
      ∀ d ∈ ds, d.sender = sock.nickname ∧ d.text = m ∧ d.eventName = "globalMessage" := by
  refine ⟨st.sockets.map (fun c =>
    { targetId := c.id, eventName := "globalMessage", sender := sock.nickname, text := m }),
    ?_, ?_, ?_, ?_⟩
  · simp [step, hfind]
  · simp [List.map_map]
  · intro c hc
    have he : List.map (fun d => d.targetId) (st.sockets.map (fun c' =>
        ({ targetId := c'.id, eventName := "globalMessage", sender := sock.nickname,
           text := m } : Delivery))) = st.sockets.map Socket.id := by
      simp [List.map_map]
    rw [he]
    exact List.count_eq_one_of_mem hnd (List.mem_map_of_mem _ hc)
  · intro d hd
    simp at hd
    obtain ⟨c, hc, rfl⟩ := hd
    simp

/-- Witness for the amended C2 in `mixedState`: the broadcast from "a"
goes exactly once to each of the two connected sockets. -/
theorem broadcast_connected_fanout_witness :
    ∃ ds, step mixedState (Event.globalMessage "a" (JSVal.str "hi")) = Except.ok (mixedState, ds) ∧
      ds.map (fun d => d.targetId) = mixedState.sockets.map Socket.id ∧
      (∀ c ∈ mixedState.sockets, (ds.map (fun d => d.targetId)).count c.id = 1) ∧
      ∀ d ∈ ds, d.sender = some "A" ∧ d.text = JSVal.str "hi" ∧ d.eventName = "globalMessage" :=
  broadcast_connected_fanout mixedState "a" (JSVal.str "hi") ⟨"a", some "A"⟩ rfl (by decide)

/-! ### Claim C3: failure semantics of the handlers -/

/-- A minimal state with one connected socket that never joined. -/
def oneSocketState : SystemState := { onlineUsers := [], sockets := [⟨"a", none⟩] }

/-- C3, counterexample: a `privateMessage` event whose payload is not an
object — here the client emits the event with no argument at all, so the
handler parameter is `undefined` — makes the destructuring
`({ to, text })` on line 86 throw a TypeError instead of completing. -/
theorem malformed_private_payload_throws :
    step oneSocketState (Event.privateMessage "a" JSVal.undef) = Except.error "TypeError" := rfl

/-- C3, amended: every handler completes without throwing EXCEPT the
`privateMessage` handler on an `undefined` or `null` payload, whose
parameter destructuring throws; for any payload that is neither
`undefined` nor `null` (and for join/globalMessage/disconnect events
with arbitrary payloads) handling completes without surfacing a
failure. -/
theorem handlers_no_throw (st : SystemState) (e : Event)
    (h : ∀ sid p, e = Event.privateMessage sid p → p ≠ JSVal.undef ∧ p ≠ JSVal.null) :
    (step st e).isOk = true := by
  cases e with
  | connect sid => simp [step, Except.isOk, Except.toBool]
  | join sid n => cases hf : findSocket st.sockets sid <;> simp [step, hf, Except.isOk, Except.toBool]
  | globalMessage sid m => cases hf : findSocket st.sockets sid <;> simp [step, hf, Except.isOk, Except.toBool]
  | disconnect sid => cases hf : findSocket st.sockets sid <;> simp [step, hf, Except.isOk, Except.toBool]
  | privateMessage sid p =>
      cases hf : findSocket st.sockets sid with
      | none => simp [step, hf, Except.isOk, Except.toBool]
      | some sock =>
          have hd : ∃ q, destructure2 p "to" "text" = Except.ok q := by
            obtain ⟨h1, h2⟩ := h sid p rfl
            cases p
            · exact absurd rfl h1
            · exact absurd rfl h2
            all_goals exact ⟨_, rfl⟩
          obtain ⟨⟨toV, textV⟩, hd⟩ := hd
          rcases hq : objGet st.onlineUsers (jsKeyOfVal toV) with _ | tid
          · simp [step, hf, hd, hq, Except.isOk, Except.toBool]
          · by_cases ht : tid = "" <;> simp [step, hf, hd, hq, ht, Except.isOk, Except.toBool]

/-- Witness for the amended C3: a well-formed-enough (string) payload is
handled without a failure. -/
theorem handlers_no_throw_witness :
    (step oneSocketState (Event.privateMessage "a" (JSVal.str "x"))).isOk = true :=
  handlers_no_throw oneSocketState (Event.privateMessage "a" (JSVal.str "x"))
    (by intro sid p hp
        injection hp with h1 h2
        subst h2
        exact ⟨fun hc => JSVal.noConfusion hc, fun hc => JSVal.noConfusion hc⟩)

/-! ### Claim C4: sender identity comes from the session binding -/

/-- C4: every delivery a `globalMessage` or `privateMessage` handler
produces carries `socket.nickname` — the handle bound to the sending
socket at join time — as its sender, whatever the payload contains; so
payloads differing in any sender-asserted content yield deliveries with
the same sender field. -/
theorem sender_is_session_bound (st : SystemState) (sid : String) (sock : Socket)
    (hfind : findSocket st.sockets sid = some sock) :
    (∀ m st' ds, step st (Event.globalMessage sid m) = Except.ok (st', ds) →
      ∀ d ∈ ds, d.sender = sock.nickname) ∧
    (∀ p st' ds, step st (Event.privateMessage sid p) = Except.ok (st', ds) →
      ∀ d ∈ ds, d.sender = sock.nickname) := by
  constructor
  · intro m st' ds hstep d hd
    simp [step, hfind] at hstep
    obtain ⟨h1, h2⟩ := hstep
    subst h2
    simp at hd
    obtain ⟨c, hc, rfl⟩ := hd
    rfl
  · intro p st' ds hstep d hd
    rcases hdp : destructure2 p "to" "text" with msg | q
    · simp [step, hfind, hdp] at hstep
    · obtain ⟨toV, textV⟩ := q
      rcases hq : objGet st.onlineUsers (jsKeyOfVal toV) with _ | tid
      · simp [step, hfind, hdp, hq] at hstep
        obtain ⟨h1, h2⟩ := hstep
        subst h2
        simp at hd
      · by_cases ht : tid = ""
        · simp [step, hfind, hdp, hq, ht] at hstep
          obtain ⟨h1, h2⟩ := hstep
          subst h2
          simp at hd
        · simp [step, hfind, hdp, hq, ht] at hstep
          obtain ⟨h1, h2⟩ := hstep
          subst h2
          simp at hd
          subst hd
          rfl

/-- Witness for C4 in `mixedState`. -/
theorem sender_is_session_bound_witness :
    (∀ m st' ds, step mixedState (Event.globalMessage "a" m) = Except.ok (st', ds) →
      ∀ d ∈ ds, d.sender = (⟨"a", some "A"⟩ : Socket).nickname) ∧
    (∀ p st' ds, step mixedState (Event.privateMessage "a" p) = Except.ok (st', ds) →
      ∀ d ∈ ds, d.sender = (⟨"a", some "A"⟩ : Socket).nickname) :=
  sender_is_session_bound mixedState "a" ⟨"a", some "A"⟩ rfl

/-! ### Claim C5: direct delivery isolation -/

/-- C5: when the target handle is registered to channel id `cid`
(a socket.io id, hence nonempty), a direct message produces exactly one
dispatch, to `cid`, carrying the session-bound sender and the text, and
the state is unchanged; no other target receives anything. -/
theorem direct_delivery_isolation (st : SystemState) (sid targetH msgText cid : String)
    (sock : Socket)
    (hfind : findSocket st.sockets sid = some sock)
    (hreg : objGet st.onlineUsers targetH = some cid)
    (hcid : cid ≠ "") :
    step st (Event.privateMessage sid
        (JSVal.obj [("to", JSVal.str targetH), ("text", JSVal.str msgText)]))
      = Except.ok (st, [{ targetId := cid, eventName := "privateMessage",
                          sender := sock.nickname, text := JSVal.str msgText }]) := by
  simp [step, hfind, destructure2, getField, jsKeyOfVal, hreg, hcid]

/-- Witness for C5: A sends "secret" to B; only B's socket receives. -/
theorem direct_delivery_isolation_witness :
    step { onlineUsers := [("A", "a"), ("B", "b")],
           sockets := [⟨"a", some "A"⟩, ⟨"b", some "B"⟩] }
      (Event.privateMessage "a"
        (JSVal.obj [("to", JSVal.str "B"), ("text", JSVal.str "secret")]))
      = Except.ok ({ onlineUsers := [("A", "a"), ("B", "b")],
                     sockets := [⟨"a", some "A"⟩, ⟨"b", some "B"⟩] },
          [{ targetId := "b", eventName := "privateMessage",
             sender := some "A", text := JSVal.str "secret" }]) :=
  direct_delivery_isolation _ "a" "B" "secret" "b" ⟨"a", some "A"⟩ rfl rfl
    (by decide)

/-! ### Claim C6: unknown recipient is silently dropped -/

/-- C6: when the target handle is not registered, a direct message
produces no dispatch at all, raises no error, and leaves the state —
registry included — unchanged. -/
theorem unknown_recipient_dropped (st : SystemState) (sid targetH msgText : String)
    (sock : Socket)
    (hfind : findSocket st.sockets sid = some sock)
    (hreg : objGet st.onlineUsers targetH = none) :
    step st (Event.privateMessage sid
        (JSVal.obj [("to", JSVal.str targetH), ("text", JSVal.str msgText)]))
      = Except.ok (st, []) := by
  simp [step, hfind, destructure2, getField, jsKeyOfVal, hreg]

/-- Witness for C6: a message to the never-registered "ghost". -/
theorem unknown_recipient_dropped_witness :
    step mixedState (Event.privateMessage "a"
        (JSVal.obj [("to", JSVal.str "ghost"), ("text", JSVal.str "x")]))
      = Except.ok (mixedState, []) :=
  unknown_recipient_dropped mixedState "a" "ghost" "x" ⟨"a", some "A"⟩ rfl rfl

/-! ### Claim C7: one entry per handle, register never fails -/

/-- C7: every step of the server preserves distinctness of the registry
keys — so at most one channel is registered under any handle at any
instant — and a join (register) event always succeeds. Since the start
state has no keys, every reachable registry satisfies the invariant. -/
theorem registry_unique_handle_invariant (st : SystemState) (e : Event)
    (st' : SystemState) (ds : List Delivery)
    (hstep : step st e = Except.ok (st', ds))
    (hnd : (st.onlineUsers.map Prod.fst).Nodup) :
    (st'.onlineUsers.map Prod.fst).Nodup ∧
      (∀ H : String, (st'.onlineUsers.map Prod.fst).count H ≤ 1) ∧
      (∀ sid n : String, (step st (Event.join sid n)).isOk = true) := by
  have hkeep : (st'.onlineUsers.map Prod.fst).Nodup := by
    cases e with
    | connect sid =>
        simp [step] at hstep
        obtain ⟨h1, h2⟩ := hstep
        subst h1
        simpa using hnd
    | join sid n =>
        cases hf : findSocket st.sockets sid with
        | none =>
            simp [step, hf] at hstep
            obtain ⟨h1, h2⟩ := hstep
            subst h1
            exact hnd
        | some sock =>
            simp [step, hf] at hstep
            obtain ⟨h1, h2⟩ := hstep
            subst h1
            simpa using keysNodup_objSet st.onlineUsers n sid hnd
    | globalMessage sid m =>
        cases hf : findSocket st.sockets sid with
        | none =>
            simp [step, hf] at hstep
            obtain ⟨h1, h2⟩ := hstep
            subst h1
            exact hnd
        | some sock =>
            simp [step, hf] at hstep
            obtain ⟨h1, h2⟩ := hstep
            subst h1
            exact hnd
    | privateMessage sid p =>
        cases hf : findSocket st.sockets sid with
        | none =>
            simp [step, hf] at hstep
            obtain ⟨h1, h2⟩ := hstep
            subst h1
            exact hnd
        | some sock =>
            rcases hdp : destructure2 p "to" "text" with msg | q
            · simp [step, hf, hdp] at hstep
            · obtain ⟨toV, textV⟩ := q
              rcases hq : objGet st.onlineUsers (jsKeyOfVal toV) with _ | tid
              · simp [step, hf, hdp, hq] at hstep
                obtain ⟨h1, h2⟩ := hstep
                subst h1
                exact hnd
              · by_cases ht : tid = ""
                · simp [step, hf, hdp, hq, ht] at hstep
                  obtain ⟨h1, h2⟩ := hstep
                  subst h1
                  exact hnd
                · simp [step, hf, hdp, hq, ht] at hstep
                  obtain ⟨h1, h2⟩ := hstep
                  subst h1
                  exact hnd
    | disconnect sid =>
        cases hf : findSocket st.sockets sid with
        | none =>
            simp [step, hf] at hstep
            obtain ⟨h1, h2⟩ := hstep
            subst h1
            exact hnd
        | some sock =>
            simp [step, hf] at hstep
            obtain ⟨h1, h2⟩ := hstep
            subst h1
            simpa using keysNodup_objDelete st.onlineUsers (nicknameKey sock.nickname) hnd
  refine ⟨hkeep, ?_, ?_⟩
  · intro H
    exact List.nodup_iff_count_le_one.mp hkeep H
  · intro sid n
    cases hf : findSocket st.sockets sid <;>
      simp [step, hf, Except.isOk, Except.toBool]

/-- Witness for C7: joining as B from the second socket of `mixedState`
keeps the registry keys distinct. -/
theorem registry_unique_handle_invariant_witness :
    ((([("A", "a"), ("B", "b")] : List (String × String)).map Prod.fst).Nodup ∧
      (∀ H : String, (([("A", "a"), ("B", "b")] : List (String × String)).map
        Prod.fst).count H ≤ 1) ∧
      (∀ sid n : String, (step mixedState (Event.join sid n)).isOk = true)) :=
  registry_unique_handle_invariant mixedState (Event.join "b" "B")
    { onlineUsers := [("A", "a"), ("B", "b")],
      sockets := [⟨"a", some "A"⟩, ⟨"b", some "B"⟩] } [] rfl (by decide)

/-! ### Claim C8: re-join under a new handle leaves the old entry -/

/-- C8: a socket that joins as H1 and then as H2 leaves BOTH handles
registered to its id (line 77 only adds; nothing removes the old
handle), and its later disconnect deletes only the H2 entry — the one
under its currently bound nickname — so H1 stays registered to the
now-disconnected socket, and all other handles are untouched. -/
theorem rejoin_keeps_old_handle (st : SystemState) (sid H1 H2 : String) (sock : Socket)
    (hfind : findSocket st.sockets sid = some sock)
    (hne : H1 ≠ H2) :
    ∃ st1 st2 st3,
      step st (Event.join sid H1) = Except.ok (st1, []) ∧
      step st1 (Event.join sid H2) = Except.ok (st2, []) ∧
      objGet st2.onlineUsers H1 = some sid ∧
      objGet st2.onlineUsers H2 = some sid ∧
      step st2 (Event.disconnect sid) = Except.ok (st3, []) ∧
      objGet st3.onlineUsers H2 = none ∧
      objGet st3.onlineUsers H1 = some sid ∧
      (∀ K, K ≠ H1 → K ≠ H2 → objGet st3.onlineUsers K = objGet st.onlineUsers K) := by
  have h1 : findSocket (setNickname st.sockets sid H1) sid
      = some { sock with nickname := some H1 } :=
    findSocket_setNickname_self st.sockets sid H1 sock hfind
  have h2 : findSocket (setNickname (setNickname st.sockets sid H1) sid H2) sid
      = some { sock with nickname := some H2 } := by
    simpa using findSocket_setNickname_self (setNickname st.sockets sid H1) sid H2
      { sock with nickname := some H1 } h1
  refine ⟨{ onlineUsers := objSet st.onlineUsers H1 sid,
            sockets := setNickname st.sockets sid H1 },
          { onlineUsers := objSet (objSet st.onlineUsers H1 sid) H2 sid,
            sockets := setNickname (setNickname st.sockets sid H1) sid H2 },
          { onlineUsers := objDelete (objSet (objSet st.onlineUsers H1 sid) H2 sid) H2,
            sockets := removeSocket (setNickname (setNickname st.sockets sid H1) sid H2) sid },
          ?_, ?_, ?_, ?_, ?_, ?_, ?_, ?_⟩
  · simp [step, hfind]
  · simp [step, h1]
  · rw [objGet_objSet_ne _ H2 sid H1 hne, objGet_objSet_self]
  · rw [objGet_objSet_self]
  · simp [step, h2, nicknameKey]
  · rw [objGet_objDelete_self]
  · rw [objGet_objDelete_ne _ H2 H1 hne, objGet_objSet_ne _ H2 sid H1 hne,
      objGet_objSet_self]
  · intro K hK1 hK2
    rw [objGet_objDelete_ne _ H2 K hK2, objGet_objSet_ne _ H2 sid K hK2,
      objGet_objSet_ne _ H1 sid K hK1]

/-- Witness for C8: one fresh socket joins as "x", re-joins as "y", then
disconnects. -/
theorem rejoin_keeps_old_handle_witness :
    ∃ st1 st2 st3,
      step { onlineUsers := [], sockets := [⟨"c", none⟩] } (Event.join "c" "x")
        = Except.ok (st1, []) ∧
      step st1 (Event.join "c" "y") = Except.ok (st2, []) ∧
      objGet st2.onlineUsers "x" = some "c" ∧
      objGet st2.onlineUsers "y" = some "c" ∧
      step st2 (Event.disconnect "c") = Except.ok (st3, []) ∧
      objGet st3.onlineUsers "y" = none ∧
      objGet st3.onlineUsers "x" = some "c" ∧
      (∀ K, K ≠ "x" → K ≠ "y" →
        objGet st3.onlineUsers K = objGet ([] : List (String × String)) K) :=
  rejoin_keeps_old_handle { onlineUsers := [], sockets := [⟨"c", none⟩] } "c" "x" "y"
    ⟨"c", none⟩ rfl (by decide)

/-! ### Claim C9: broadcast from a never-joined channel -/

/-- C9: a connected socket that never joined can still broadcast: the
message goes to every connected socket, and the sender field is the
absent (undefined) nickname; registration is not required to send. -/
theorem broadcast_without_join (st : SystemState) (sid : String) (sock : Socket) (m : JSVal)
    (hfind : findSocket st.sockets sid = some sock)
    (hnick : sock.nickname = none) :
    ∃ ds, step st (Event.globalMessage sid m) = Except.ok (st, ds) ∧
      ds.map (fun d => d.targetId) = st.sockets.map Socket.id ∧
      ∀ d ∈ ds, d.sender = none ∧ d.text = m := by
  refine ⟨st.sockets.map (fun c =>
    { targetId := c.id, eventName := "globalMessage", sender := sock.nickname, text := m }),
    ?_, ?_, ?_⟩
  · simp [step, hfind]
  · simp [List.map_map]
  · intro d hd
    simp at hd
    obtain ⟨c, hc, rfl⟩ := hd
    simp [hnick]

/-- Witness for C9 in `mixedState`: the never-joined socket "b"
broadcasts to both connected sockets with an undefined sender. -/
theorem broadcast_without_join_witness :
    ∃ ds, step mixedState (Event.globalMessage "b" (JSVal.str "hi"))
        = Except.ok (mixedState, ds) ∧
      ds.map (fun d => d.targetId) = mixedState.sockets.map Socket.id ∧
      ∀ d ∈ ds, d.sender = none ∧ d.text = JSVal.str "hi" :=
  broadcast_without_join mixedState "b" ⟨"b", none⟩ (JSVal.str "hi") rfl rfl

/-! ### Claim C10: disconnect of a never-joined channel -/

/-- C10: when a socket that never joined disconnects, line 97 evaluates
`delete onlineUsers[undefined]`, whose key coerces to the literal string
"undefined": any entry registered under the handle "undefined" is
removed and every other handle's entry is left unchanged. -/
theorem disconnect_without_join (st : SystemState) (sid : String) (sock : Socket)
    (hfind : findSocket st.sockets sid = some sock)
    (hnick : sock.nickname = none) :
    ∃ st', step st (Event.disconnect sid) = Except.ok (st', []) ∧
      objGet st'.onlineUsers "undefined" = none ∧
      ∀ K, K ≠ "undefined" → objGet st'.onlineUsers K = objGet st.onlineUsers K := by
  refine ⟨{ onlineUsers := objDelete st.onlineUsers "undefined",
            sockets := removeSocket st.sockets sid }, ?_, ?_, ?_⟩
  · simp [step, hfind, hnick, nicknameKey]
  · simp [objGet_objDelete_self]
  · intro K hK
    simp [objGet_objDelete_ne _ _ _ hK]

/-- Witness for C10: a registry holding an entry under the literal
handle "undefined" next to a normal one; the never-joined socket's
disconnect removes exactly the former. -/
theorem disconnect_without_join_witness :
    ∃ st', step { onlineUsers := [("undefined", "z"), ("A", "a")],
                  sockets := [⟨"u", none⟩] } (Event.disconnect "u")
        = Except.ok (st', []) ∧
      objGet st'.onlineUsers "undefined" = none ∧
      ∀ K, K ≠ "undefined" → objGet st'.onlineUsers K
        = objGet [("undefined", "z"), ("A", "a")] K :=
  disconnect_without_join
    { onlineUsers := [("undefined", "z"), ("A", "a")], sockets := [⟨"u", none⟩] }
    "u" ⟨"u", none⟩ rfl rfl
